import Mathlib

/-
Verification development for the mongodbExplainLinter repository.

The repository (src/lintExplainCode) contains two near-identical linter
classes, `AtlasLinter` (atlas_linter.py) and `ClientLinter`
(client_linter.py), plus a pydantic configuration module (config.py).
The private methods `extract_queries_from_diff`, `_extract_collection_name`,
`_parse_query_string`, `_parse_aggregation_pipeline`,
`_analyze_query_statically` and the body of `lint_pr` are textually
identical in the two classes; they are embedded once below, at top level.
The two `analyze_query_performance` methods differ (the client variant
first checks that the collection exists) and are embedded separately
under the namespaces `AtlasLinter` and `ClientLinter`.

Python strings are modelled as `List Char` (the inputs are ASCII).
The database and Python's `eval` are external effects; they are modelled
as oracles passed explicitly: `EvalOracle` maps an argument text to
`some value` (successful evaluation) or `none` (the `eval` call raised),
and `DbOracle` answers the `explain` calls and `list_collection_names`.
Everything else is translated directly from the Python source.
-/

/-! ## Characters and basic Python string operations -/

/-- The character `\x7b` (opening curly brace). -/
def lbrace : Char := Char.ofNat 123

/-- The character `\x7d` (closing curly brace). -/
def rbrace : Char := Char.ofNat 125

/-- The single-quote character. -/
def quoteS : Char := Char.ofNat 39

/-- The double-quote character. -/
def quoteD : Char := Char.ofNat 34

/-- `leads nd s` is true iff `nd` is an initial segment of `s`. -/
def leads : List Char → List Char → Bool
  | [], _ => true
  | _ :: _, [] => false
  | a :: as, b :: bs => a == b && leads as bs

/-- Python's substring test `nd in s`. -/
def hasSub (nd : List Char) : List Char → Bool
  | [] => leads nd []
  | c :: rest => leads nd (c :: rest) || hasSub nd rest

/-- Python's `str.split(sep)` for a one-character separator: all segments,
empty segments included. -/
def pySplit (sep : Char) : List Char → List (List Char)
  | [] => [[]]
  | c :: rest =>
    if c == sep then [] :: pySplit sep rest
    else
      match pySplit sep rest with
      | [] => [[c]]
      | l :: ls => (c :: l) :: ls

/-- `diff_content.split('\n')` from `extract_queries_from_diff`. -/
def splitLines (s : List Char) : List (List Char) := pySplit '\n' s

/-- Python's `enumerate`, starting at index `i`. -/
def idxFrom (i : Nat) : List (List Char) → List (Nat × List Char)
  | [] => []
  | l :: ls => (i, l) :: idxFrom (i + 1) ls

/-- Drop matching characters from the end of a list. -/
def dropTail (p : Char → Bool) (l : List Char) : List Char :=
  (l.reverse.dropWhile p).reverse

/-- Python's `str.strip(chars)`: drop characters satisfying `p` from both
ends. -/
def stripWith (p : Char → Bool) (l : List Char) : List Char :=
  dropTail p (l.dropWhile p)

/-- The whitespace characters stripped by Python's `str.strip()`
(and matched by the regex class `\s`): space, tab, newline, carriage
return, vertical tab, form feed. -/
def isPySpace (c : Char) : Bool :=
  c == ' ' || c == '\t' || c == '\n' || c == '\r' ||
  c == Char.ofNat 11 || c == Char.ofNat 12

/-- Python's `str.strip()` with no argument. -/
def pyStrip (l : List Char) : List Char := stripWith isPySpace l

/-- The two quote characters, as stripped by `.strip("'\"")`. -/
def isQuoteChar (c : Char) : Bool := c == quoteS || c == quoteD

/-- Python's `.strip("'\"")`. -/
def stripQuotes (l : List Char) : List Char := stripWith isQuoteChar l

/-- Python's `str.lower()` (ASCII inputs). -/
def pyLower (l : List Char) : List Char := l.map Char.toLower

/-- Python's `str.count(c)` for a single character. -/
def countChar (c : Char) (l : List Char) : Nat :=
  (l.filter (fun d => d == c)).length

/-- Decimal rendering of a natural number, as Python's `str(n)`. -/
def natStr (n : Nat) : List Char := (Nat.repr n).toList

/-- Decimal rendering of an integer, as Python's `str(i)`. -/
def intStr : Int → List Char
  | Int.ofNat n => natStr n
  | Int.negSucc n => '-' :: natStr (n + 1)

/-! ## The operation patterns of `extract_queries_from_diff`

Each pattern has the shape `\.op\(([^)]+)\)`: the literal text `.op(`,
then a nonempty run of characters other than `)` (captured), then `)`.
`re.finditer` scans the line left to right, restarting after the closing
parenthesis of each successful match.  `scanGo` models this directly: at
each position, if the literal needle `.op(` starts there and is followed
by a nonempty `)`‑free run and then a `)`, a match is recorded and the
scan resumes after that `)`; otherwise the scan moves one character
right.  The fuel argument only bounds the recursion; every step consumes
at least one character, so fuel equal to the length of the text is
always sufficient. -/

def scanGo (nd : List Char) : Nat → List Char → List (List Char)
  | 0, _ => []
  | _ + 1, [] => []
  | fuel + 1, c :: rest =>
    if leads nd (c :: rest) then
      if ((c :: rest).drop nd.length).takeWhile (fun d => !(d == ')')) ≠ [] ∧
         ((c :: rest).drop nd.length).dropWhile (fun d => !(d == ')')) ≠ [] then
        ((c :: rest).drop nd.length).takeWhile (fun d => !(d == ')')) ::
          scanGo nd fuel
            ((((c :: rest).drop nd.length).dropWhile (fun d => !(d == ')'))).drop 1)
      else scanGo nd fuel rest
    else scanGo nd fuel rest

/-- All matches of the pattern with literal needle `nd` in one line:
the list of captured argument texts, leftmost first. -/
def scanMatches (nd : List Char) (s : List Char) : List (List Char) :=
  scanGo nd s.length s

/-- The seven regex pattern source strings of the `patterns` list, in
source order, paired with the literal needle (`\.op\(` unescaped) that
starts each pattern. -/
def patFind : List Char := ("\\.find\\(([^)]+)\\)").toList
def patFindOne : List Char := ("\\.findOne\\(([^)]+)\\)").toList
def patAggregate : List Char := ("\\.aggregate\\(([^)]+)\\)").toList
def patUpdateOne : List Char := ("\\.updateOne\\(([^)]+)\\)").toList
def patUpdateMany : List Char := ("\\.updateMany\\(([^)]+)\\)").toList
def patDeleteOne : List Char := ("\\.deleteOne\\(([^)]+)\\)").toList
def patDeleteMany : List Char := ("\\.deleteMany\\(([^)]+)\\)").toList

def ndFind : List Char := (".find(").toList
def ndFindOne : List Char := (".findOne(").toList
def ndAggregate : List Char := (".aggregate(").toList
def ndUpdateOne : List Char := (".updateOne(").toList
def ndUpdateMany : List Char := (".updateMany(").toList
def ndDeleteOne : List Char := (".deleteOne(").toList
def ndDeleteMany : List Char := (".deleteMany(").toList

def opData : List (List Char × List Char) :=
  [(patFind, ndFind), (patFindOne, ndFindOne), (patAggregate, ndAggregate),
   (patUpdateOne, ndUpdateOne), (patUpdateMany, ndUpdateMany),
   (patDeleteOne, ndDeleteOne), (patDeleteMany, ndDeleteMany)]

/-- The operation tag stored in each record:
`pattern.split('.')[1].split('(')[0]` from the source. -/
def opTag (pat : List Char) : List Char :=
  (pySplit '(' ((pySplit '.' pat).getD 1 [])).getD 0 []

/-! ## `_extract_collection_name`

The method searches the line with
`(?:db\.)?(\w+)\.(?:find|findOne|aggregate|update|delete)` and, failing
that, the up to 3 preceding lines with `(\w+)\s*=\s*db\.(\w+)`.
`re.search` tries each starting position from the left; the optional
group `(?:db\.)?` is tried greedily first; `(\w+)` is greedy with
backtracking (modelled by `coreDescend`/`varDescend`, which try run
lengths from longest to shortest); the alternation needs any one
alternative to match as a prefix. -/

/-- Python's `\w` for ASCII text. -/
def isWordChar (c : Char) : Bool := c.isAlphanum || c == '_'

def wFind : List Char := ("find").toList
def wFindOne : List Char := ("findOne").toList
def wAggregate : List Char := ("aggregate").toList
def wUpdate : List Char := ("update").toList
def wDelete : List Char := ("delete").toList

/-- The alternation `(?:find|findOne|aggregate|update|delete)` preceded
by `\.`: true iff `t` starts with a dot followed by one of the five
words. -/
def altAt (t : List Char) : Bool :=
  match t with
  | c :: rest =>
    c == '.' &&
      (leads wFind rest || leads wFindOne rest || leads wAggregate rest ||
       leads wUpdate rest || leads wDelete rest)
  | [] => false

/-- Backtracking over the greedy `(\w+)` of the collection pattern:
try capture lengths `k+1` down to `1`; succeed when the text after the
capture starts with `\.` and an alternative. -/
def coreDescend (s : List Char) : Nat → Option (List Char)
  | 0 => none
  | k + 1 =>
    if altAt (s.drop (k + 1)) then some (s.take (k + 1))
    else coreDescend s k

/-- One attempt of `(\w+)\.(?:find|findOne|aggregate|update|delete)` at
the start of `s`. -/
def coreAt (s : List Char) : Option (List Char) :=
  coreDescend s (s.takeWhile isWordChar).length

def dbDot : List Char := ("db.").toList

/-- One attempt of the full collection pattern at the start of `s`: the
optional `(?:db\.)?` is consumed greedily first, and on failure of the
remainder the attempt is retried without it. -/
def attemptAt (s : List Char) : Option (List Char) :=
  match (if leads dbDot s then coreAt (s.drop 3) else none) with
  | some r => some r
  | none => coreAt s

/-- `re.search` of the collection pattern: leftmost starting position
that admits a match; returns capture group 1. -/
def reSearchColl : List Char → Option (List Char)
  | [] => none
  | c :: rest =>
    match attemptAt (c :: rest) with
    | some r => some r
    | none => reSearchColl rest

/-- Backtracking over the greedy first `(\w+)` of
`(\w+)\s*=\s*db\.(\w+)`; on success returns capture group 2 (the
maximal word run after `db.`). -/
def varDescend (s : List Char) : Nat → Option (List Char)
  | 0 => none
  | k + 1 =>
    match ((s.drop (k + 1)).dropWhile isPySpace) with
    | c :: rest =>
      if c == '=' then
        if leads dbDot (rest.dropWhile isPySpace) then
          if ((rest.dropWhile isPySpace).drop 3).takeWhile isWordChar ≠ [] then
            some (((rest.dropWhile isPySpace).drop 3).takeWhile isWordChar)
          else varDescend s k
        else varDescend s k
      else varDescend s k
    | [] => varDescend s k

/-- One attempt of the assignment pattern at the start of `s`. -/
def varAttempt (s : List Char) : Option (List Char) :=
  varDescend s (s.takeWhile isWordChar).length

/-- `re.search` of `(\w+)\s*=\s*db\.(\w+)`, returning capture group 2. -/
def reSearchVar : List Char → Option (List Char)
  | [] => none
  | c :: rest =>
    match varAttempt (c :: rest) with
    | some r => some r
    | none => reSearchVar rest

/-- The loop `for i in range(max(0, line_num - 3), line_num)` of
`_extract_collection_name`: search each of the up to 3 preceding lines,
in ascending order, returning the first assignment match. -/
def findPrevBinding (all : List (List Char)) : List Nat → Option (List Char)
  | [] => none
  | i :: is =>
    match reSearchVar (all.getD i []) with
    | some n => some n
    | none => findPrevBinding all is

def sUnknown : List Char := ("unknown").toList

/-- `_extract_collection_name(line, line_num, all_lines)` (identical in
both linters): inline pattern on the line, else an assignment in the 3
preceding lines, else `"unknown"`. -/
def extract_collection_name (line : List Char) (line_num : Nat)
    (all_lines : List (List Char)) : List Char :=
  match reSearchColl line with
  | some name => name
  | none =>
    match findPrevBinding all_lines
        (List.range' (line_num - 3) (line_num - (line_num - 3))) with
    | some name => name
    | none => sUnknown

/-! ## `extract_queries_from_diff` -/

/-- One raw query record, the dict appended per regex match. -/
structure RawQuery where
  line_number : Nat
  operation : List Char
  query : List Char
  collection : List Char
  full_line : List Char
deriving DecidableEq

/-- The records contributed by one line of the diff: for each of the 7
patterns in order, for each match on the line in order, one record. -/
def recordsForLine (all : List (List Char)) (i : Nat) (line : List Char) :
    List RawQuery :=
  opData.flatMap (fun pd =>
    (scanMatches pd.2 line).map (fun cap =>
      { line_number := i + 1
        operation := opTag pd.1
        query := cap
        collection := extract_collection_name line i all
        full_line := pyStrip line }))

/-- `extract_queries_from_diff(diff_content)` (identical in both
linters). -/
def extract_queries_from_diff (diff : List Char) : List RawQuery :=
  ((idxFrom 0 (splitLines diff)).map
    (fun p => recordsForLine (splitLines diff) p.1 p.2)).flatten

/-! ## Values, oracles, `_parse_query_string`, `_parse_aggregation_pipeline`

`eval` and the database are external effects.  `EvalOracle` models one
`eval(text)` call: `some v` when evaluation succeeds with value `v`
(whatever its type — the source returns it unchecked), `none` when it
raises.  `DbOracle` models the driver: the two explain calls answer with
an explain document or raise (carrying the exception text), and
`collections` models `list_collection_names()`. -/

/-- A Python value, as produced by literal evaluation or built by the
fallback paths. -/
inductive PyVal where
  | pstr : List Char → PyVal
  | pint : Int → PyVal
  | pdict : List (PyVal × PyVal) → PyVal
  | plist : List PyVal → PyVal

abbrev EvalOracle := List Char → Option PyVal

/-- The explain response fields the linters read, each optional to model
`dict.get` on a possibly missing key (`executionStats` /
`queryPlanner.winningPlan` subdocuments are flattened). -/
structure ExplainDoc where
  executionTimeMillis : Option Int
  totalDocsExamined : Option Int
  nReturned : Option Int
  indexName : Option (List Char)
  stage : Option (List Char)
deriving DecidableEq

structure DbOracle where
  fnd : List Char → PyVal → Except (List Char) ExplainDoc
  agg : List Char → PyVal → Except (List Char) ExplainDoc
  collections : List (List Char)

/-- The `if ':' in cleaned: ...` fallback of `_parse_query_string`:
split on every colon, and if at least two parts result, build the
single-field dict from parts 0 and 1 (each whitespace- then
quote-stripped); otherwise fall through to the empty dict. -/
def colonFallback (cleaned : List Char) : PyVal :=
  if hasSub [':'] cleaned then
    if (pySplit ':' cleaned).length ≥ 2 then
      PyVal.pdict
        [(PyVal.pstr (stripQuotes (pyStrip ((pySplit ':' cleaned).getD 0 []))),
          PyVal.pstr (stripQuotes (pyStrip ((pySplit ':' cleaned).getD 1 []))))]
    else PyVal.pdict []
  else PyVal.pdict []

/-- `_parse_query_string(query_str)` (identical in both linters):
strip whitespace then quotes; if the cleaned text contains both braces,
try `eval` and return its value on success; on `eval` failure, or
without braces, fall back to the colon split; else the empty dict.
Total: every failure path is caught in the source. -/
def parse_query_string (evalO : EvalOracle) (query_str : List Char) : PyVal :=
  if hasSub [lbrace] (stripQuotes (pyStrip query_str)) ∧
     hasSub [rbrace] (stripQuotes (pyStrip query_str)) then
    match evalO (stripQuotes (pyStrip query_str)) with
    | some v => v
    | none => colonFallback (stripQuotes (pyStrip query_str))
  else colonFallback (stripQuotes (pyStrip query_str))

/-- The default pipeline `[{"$match": {}}]`. -/
def defaultPipeline : PyVal :=
  PyVal.plist [PyVal.pdict [(PyVal.pstr (("$match").toList), PyVal.pdict [])]]

/-- `_parse_aggregation_pipeline(pipeline_str)` (identical in both
linters): `eval` the text; on failure return the default pipeline. -/
def parse_aggregation_pipeline (evalO : EvalOracle) (s : List Char) : PyVal :=
  match evalO s with
  | some v => v
  | none => defaultPipeline

/-! ## `analyze_query_performance` -/

/-- The analysis dict built from a successful explain call. -/
structure Analysis where
  collection : List Char
  operation : List Char
  query : List Char
  execution_time_ms : Int
  documents_examined : Int
  documents_returned : Int
  index_used : Option (List Char)
  is_collection_scan : Bool
  error : Option (List Char)
  raw_explain : Option ExplainDoc
deriving DecidableEq

def sCOLLSCAN : List Char := ("COLLSCAN").toList

/-- The success dict of `analyze_query_performance`: metrics read with
`.get(..., 0)` defaults from the explain document. -/
def successAnalysis (name qstr op : List Char) (doc : ExplainDoc) : Analysis :=
  { collection := name, operation := op, query := qstr
    execution_time_ms := doc.executionTimeMillis.getD 0
    documents_examined := doc.totalDocsExamined.getD 0
    documents_returned := doc.nReturned.getD 0
    index_used := doc.indexName
    is_collection_scan := doc.stage == some sCOLLSCAN
    error := none
    raw_explain := some doc }

/-- The `except` dict of `analyze_query_performance`: all metrics zero,
no index, no collection scan, `error` set. -/
def errorAnalysis (name qstr op e : List Char) : Analysis :=
  { collection := name, operation := op, query := qstr
    execution_time_ms := 0, documents_examined := 0
    documents_returned := 0, index_used := none
    is_collection_scan := false, error := some e, raw_explain := none }

def sAggregate : List Char := ("aggregate").toList

/-- The explain call of `analyze_query_performance` (identical in both
linters): `operation == 'aggregate'` selects the aggregation path with
the parsed pipeline, anything else the find path with the parsed
query. -/
def runExplain (evalO : EvalOracle) (dbO : DbOracle)
    (name qstr op : List Char) : Except (List Char) ExplainDoc :=
  if op = sAggregate then dbO.agg name (parse_aggregation_pipeline evalO qstr)
  else dbO.fnd name (parse_query_string evalO qstr)

namespace AtlasLinter

/-- `AtlasLinter.analyze_query_performance`: run explain; any raised
exception is caught and becomes the zero-valued error dict. -/
def analyze_query_performance (evalO : EvalOracle) (dbO : DbOracle)
    (name qstr op : List Char) : Analysis :=
  match runExplain evalO dbO name qstr op with
  | Except.ok doc => successAnalysis name qstr op doc
  | Except.error e => errorAnalysis name qstr op e

end AtlasLinter

/-- The message `f"Collection '{name}' not found in client database"`. -/
def notFoundMsg (name : List Char) : List Char :=
  ("Collection ").toList ++ [quoteS] ++ name ++ [quoteS] ++
    (" not found in client database").toList

namespace ClientLinter

/-- `ClientLinter.analyze_query_performance`: first check
`collection_name not in self.db.list_collection_names()` and
short-circuit with the not-found error dict; otherwise as the Atlas
variant. -/
def analyze_query_performance (evalO : EvalOracle) (dbO : DbOracle)
    (name qstr op : List Char) : Analysis :=
  if !(dbO.collections.contains name) then
    errorAnalysis name qstr op (notFoundMsg name)
  else
    match runExplain evalO dbO name qstr op with
    | Except.ok doc => successAnalysis name qstr op doc
    | Except.error e => errorAnalysis name qstr op e

end ClientLinter

/-! ## `_analyze_query_statically` -/

/-- An issue dict.  Static issues carry a `type` key (`itype` here) and
no `analysis`; the explain-based issues carry `analysis` and no
`type`. -/
structure Issue where
  severity : List Char
  message : List Char
  query : RawQuery
  itype : Option (List Char)
  analysis : Option Analysis
deriving DecidableEq

def sHIGH : List Char := ("HIGH").toList
def sMEDIUM : List Char := ("MEDIUM").toList
def sLOW : List Char := ("LOW").toList
def sEMPTY_QUERY : List Char := ("EMPTY_QUERY").toList
def sREGEX_WITHOUT_INDEX : List Char := ("REGEX_WITHOUT_INDEX").toList
def sDATE_RANGE_QUERY : List Char := ("DATE_RANGE_QUERY").toList
def sSORT_WITHOUT_LIMIT : List Char := ("SORT_WITHOUT_LIMIT").toList
def sMULTI_FIELD_QUERY : List Char := ("MULTI_FIELD_QUERY").toList

/-- The two texts `query_str.strip() in ['{}', '']` is compared with. -/
def emptyBraces : List Char := [lbrace, rbrace]

def emptyMsg (n : Nat) : List Char :=
  ("Empty query detected on line ").toList ++ natStr n ++
    (" - will scan entire collection").toList

def regexMsg (n : Nat) : List Char :=
  ("Regex query detected on line ").toList ++ natStr n ++
    (" without text index - may be slow").toList

def dateMsg (n : Nat) : List Char :=
  ("Date range query on line ").toList ++ natStr n ++
    (" - ensure index on created_at field").toList

def sortMsg (n : Nat) : List Char :=
  ("Sort operation without limit on line ").toList ++ natStr n ++
    (" - may be expensive").toList

def multiMsg (n : Nat) : List Char :=
  ("Multi-field query on line ").toList ++ natStr n ++
    (" - consider compound index").toList

/-- A static issue dict. -/
def mkStatic (sev msg : List Char) (q : RawQuery) (t : List Char) : Issue :=
  { severity := sev, message := msg, query := q, itype := some t,
    analysis := none }

/-- `_analyze_query_statically(query)` (identical in both linters): the
five substring heuristics, appended in source order, all evaluated
independently. -/
def analyze_query_statically (q : RawQuery) : List Issue :=
  (if pyStrip q.query = emptyBraces ∨ pyStrip q.query = [] then
    [mkStatic sHIGH (emptyMsg q.line_number) q sEMPTY_QUERY] else []) ++
  (if hasSub (("regex").toList) (pyLower q.query) ∧
      ¬ hasSub (("text").toList) (pyLower q.query) then
    [mkStatic sMEDIUM (regexMsg q.line_number) q sREGEX_WITHOUT_INDEX] else []) ++
  (if hasSub (("created_at").toList) q.query ∧
      hasSub (("gte").toList) q.query then
    [mkStatic sMEDIUM (dateMsg q.line_number) q sDATE_RANGE_QUERY] else []) ++
  (if q.operation = sAggregate ∧ hasSub (("sort").toList) q.query ∧
      ¬ hasSub (("limit").toList) q.query then
    [mkStatic sMEDIUM (sortMsg q.line_number) q sSORT_WITHOUT_LIMIT] else []) ++
  (if countChar ':' q.query > 2 ∧
      ¬ hasSub (("compound").toList) (pyLower q.query) then
    [mkStatic sLOW (multiMsg q.line_number) q sMULTI_FIELD_QUERY] else [])

/-! ## `lint_pr` -/

def collScanMsg (n : Nat) : List Char :=
  ("Collection scan detected on line ").toList ++ natStr n

def slowMsg (n : Nat) (ms : Int) : List Char :=
  ("Slow query detected on line ").toList ++ natStr n ++
    (" (").toList ++ intStr ms ++ ("ms)").toList

def largeMsg (n : Nat) (docs : Int) : List Char :=
  ("Large document scan on line ").toList ++ natStr n ++
    (" (").toList ++ intStr docs ++ (" docs)").toList

def collScanIssue (q : RawQuery) (a : Analysis) : Issue :=
  { severity := sHIGH, message := collScanMsg q.line_number, query := q,
    itype := none, analysis := some a }

def slowIssue (q : RawQuery) (a : Analysis) : Issue :=
  { severity := sMEDIUM, message := slowMsg q.line_number a.execution_time_ms,
    query := q, itype := none, analysis := some a }

def largeIssue (q : RawQuery) (a : Analysis) : Issue :=
  { severity := sMEDIUM, message := largeMsg q.line_number a.documents_examined,
    query := q, itype := none, analysis := some a }

/-- The three explain-threshold checks of `lint_pr`, appended after the
static issues, each evaluated independently, with the literal constants
`100` and `1000` from the source. -/
def dynIssuesFor (q : RawQuery) (a : Analysis) : List Issue :=
  (if a.is_collection_scan then [collScanIssue q a] else []) ++
  (if a.execution_time_ms > 100 then [slowIssue q a] else []) ++
  (if a.documents_examined > 1000 then [largeIssue q a] else [])

/-- One iteration of the `for query in queries` loop of `lint_pr`:
records with a resolved collection contribute one analysis and their
static plus explain-based issues; records with collection `"unknown"`
contribute nothing. -/
def processQuery (analyze : List Char → List Char → List Char → Analysis)
    (q : RawQuery) : List Analysis × List Issue :=
  if q.collection ≠ sUnknown then
    ([analyze q.collection q.query q.operation],
      analyze_query_statically q ++
        dynIssuesFor q (analyze q.collection q.query q.operation))
  else ([], [])

/-- The report dict.  The early (no queries) return carries `message`
and no counts; the main return carries the counts and no `message`;
optional fields model the differing key sets. -/
structure Report where
  success : Bool
  message : Option (List Char)
  total_queries : Option Nat
  queries_analyzed : Option Nat
  issues_found : Option Nat
  queries : List RawQuery
  analyses : List Analysis
  issues : List Issue
deriving DecidableEq

def msgNoQueries : List Char := ("No MongoDB queries found in PR").toList

/-- The body of `lint_pr(diff_content)`, identical in both linters up to
the bound `self.analyze_query_performance`, which is passed here as
`analyze`.  The loop's successive appends are expressed as `flatMap`
over the extracted records. -/
def lint_pr_core (analyze : List Char → List Char → List Char → Analysis)
    (diff : List Char) : Report :=
  if (extract_queries_from_diff diff).isEmpty then
    { success := true, message := some msgNoQueries, total_queries := none,
      queries_analyzed := none, issues_found := none,
      queries := [], analyses := [], issues := [] }
  else
    { success :=
        ((extract_queries_from_diff diff).flatMap
          (fun q => (processQuery analyze q).2)).length == 0
      message := none
      total_queries := some (extract_queries_from_diff diff).length
      queries_analyzed := some ((extract_queries_from_diff diff).flatMap
          (fun q => (processQuery analyze q).1)).length
      issues_found := some ((extract_queries_from_diff diff).flatMap
          (fun q => (processQuery analyze q).2)).length
      queries := extract_queries_from_diff diff
      analyses := (extract_queries_from_diff diff).flatMap
          (fun q => (processQuery analyze q).1)
      issues := (extract_queries_from_diff diff).flatMap
          (fun q => (processQuery analyze q).2) }

/-! ## Configuration (config.py)

`LintConfig` carries the nominal thresholds.  Both linters import the
global `config` object but `lint_pr` never reads it; the front-end
wrappers below therefore take a `LintConfig` argument and pass it
nowhere, mirroring the unused global. -/

structure LintConfig where
  max_collection_scan_threshold : Int := 1000
  max_execution_time_ms : Int := 100
  include_system_collections : Bool := false
  sample_size : Int := 1000

namespace AtlasLinter

/-- `AtlasLinter.lint_pr`: the shared body with the Atlas analyzer.
`cfg` models the imported global configuration, unread as in the
source. -/
def lint_pr (_cfg : LintConfig) (evalO : EvalOracle) (dbO : DbOracle)
    (diff : List Char) : Report :=
  lint_pr_core (analyze_query_performance evalO dbO) diff

end AtlasLinter

namespace ClientLinter

/-- `ClientLinter.lint_pr`: the shared body with the client analyzer. -/
def lint_pr (_cfg : LintConfig) (evalO : EvalOracle) (dbO : DbOracle)
    (diff : List Char) : Report :=
  lint_pr_core (analyze_query_performance evalO dbO) diff

end ClientLinter

/-! ## Spec-side reference definition for the interpreter fallback

`parse_query_spec` follows the spec's description of
`_parse_query_string`, amended in one place: the value of the
single-field fallback mapping is the text strictly between the first and
second colons (the source takes `split(':')[1]`), not the whole
remainder after the first colon.  It is compared with
`parse_query_string` in the refinement theorem below. -/

def parse_query_spec (evalO : EvalOracle) (query_str : List Char) : PyVal :=
  if hasSub [lbrace] (stripQuotes (pyStrip query_str)) ∧
     hasSub [rbrace] (stripQuotes (pyStrip query_str)) ∧
     (evalO (stripQuotes (pyStrip query_str))).isSome then
    (evalO (stripQuotes (pyStrip query_str))).getD (PyVal.pdict [])
  else if hasSub [':'] (stripQuotes (pyStrip query_str)) then
    PyVal.pdict
      [(PyVal.pstr (stripQuotes (pyStrip
          ((stripQuotes (pyStrip query_str)).takeWhile (fun d => !(d == ':'))))),
        PyVal.pstr (stripQuotes (pyStrip
          ((((stripQuotes (pyStrip query_str)).dropWhile
              (fun d => !(d == ':'))).drop 1).takeWhile (fun d => !(d == ':'))))))]
  else PyVal.pdict []

/-! ## Concrete fixtures used by the claim theorems and witnesses -/

/-- An eval oracle on which every `eval` call raises. -/
def evalNone : EvalOracle := fun _ => none

def sDown : List Char := ("down").toList

/-- A database oracle on which every explain call raises. -/
def dbDown : DbOracle :=
  { fnd := fun _ _ => Except.error sDown
    agg := fun _ _ => Except.error sDown
    collections := [] }

/-- The default configuration values of config.py. -/
def cfgDefault : LintConfig := {}

/-- An explain document sitting exactly at the fixed thresholds:
100 ms, 1000 documents examined, an index scan. -/
def docAt100 : ExplainDoc :=
  { executionTimeMillis := some 100, totalDocsExamined := some 1000,
    nReturned := some 1, indexName := some (("status_1").toList),
    stage := some (("IXSCAN").toList) }

def dbAt100 : DbOracle :=
  { fnd := fun _ _ => Except.ok docAt100
    agg := fun _ _ => Except.ok docAt100
    collections := [("users").toList] }

/-- An explain document just over the thresholds: 101 ms, 1001 documents
examined, a collection scan. -/
def docAt101 : ExplainDoc :=
  { executionTimeMillis := some 101, totalDocsExamined := some 1001,
    nReturned := some 1, indexName := none, stage := some sCOLLSCAN }

def dbAt101 : DbOracle :=
  { fnd := fun _ _ => Except.ok docAt101
    agg := fun _ _ => Except.ok docAt101
    collections := [("users").toList] }

/-- The one-line diff `db.users.find({status: 1})`. -/
def diffUsersFind : List Char := ("db.users.find(\x7bstatus: 1\x7d)").toList

/-- The record the extractor produces for `diffUsersFind` (note the
trailing backslash in the operation tag). -/
def recUsersFind : RawQuery :=
  { line_number := 1, operation := ("find\\").toList
    query := ("\x7bstatus: 1\x7d").toList, collection := ("users").toList
    full_line := diffUsersFind }

/-- The analysis produced for `recUsersFind` against `dbAt101`. -/
def analysisAt101 : Analysis :=
  successAnalysis (("users").toList) (("\x7bstatus: 1\x7d").toList)
    (("find\\").toList) docAt101

/-- The one-line diff `db.orders.aggregate([{$sort: {x: 1}}])`. -/
def aggDiff : List Char :=
  ("db.orders.aggregate([\x7b$sort: \x7bx: 1\x7d\x7d])").toList

/-- The captured argument text of `aggDiff`. -/
def aggArg : List Char := ("[\x7b$sort: \x7bx: 1\x7d\x7d]").toList

/-- The record of `aggDiff` with the operation tag replaced by the bare
word `aggregate` (what the static analyzer visibly expects). -/
def recAggBare : RawQuery :=
  { line_number := 1, operation := sAggregate, query := aggArg
    collection := ("orders").toList, full_line := aggDiff }

/-- The one-line diff `db.users.find({})`. -/
def diffUsersEmpty : List Char := ("db.users.find(\x7b\x7d)").toList

/-- The record the extractor produces for `diffUsersEmpty`. -/
def recUsersEmpty : RawQuery :=
  { line_number := 1, operation := ("find\\").toList
    query := emptyBraces, collection := ("users").toList
    full_line := diffUsersEmpty }

/-! ## General lemmas -/

/-- Every capture emitted by the match scanner is nonempty: the capture
group `([^)]+)` requires at least one character. -/
theorem scanGo_nonempty (nd : List Char) :
    ∀ (fuel : Nat) (s : List Char) (cap : List Char),
      cap ∈ scanGo nd fuel s → cap ≠ [] := by
  intro fuel
  induction fuel with
  | zero => intro s cap h; simp [scanGo] at h
  | succ n ih =>
    intro s cap h
    cases s with
    | nil => simp [scanGo] at h
    | cons c rest =>
      rw [scanGo] at h
      by_cases h1 : leads nd (c :: rest) = true
      · rw [if_pos h1] at h
        by_cases h2 :
            ((c :: rest).drop nd.length).takeWhile (fun d => !(d == ')')) ≠ [] ∧
            ((c :: rest).drop nd.length).dropWhile (fun d => !(d == ')')) ≠ []
        · rw [if_pos h2] at h
          rcases List.mem_cons.mp h with rfl | h3
          · exact h2.1
          · exact ih _ _ h3
        · rw [if_neg h2] at h
          exact ih _ _ h
      · rw [if_neg h1] at h
        exact ih _ _ h

/-- `pySplit` never returns the empty list of segments. -/
theorem pySplit_ne_nil (sep : Char) (l : List Char) : pySplit sep l ≠ [] := by
  cases l with
  | nil => simp [pySplit]
  | cons c rest =>
    rw [pySplit]
    by_cases hc : (c == sep) = true
    · simp [hc]
    · rw [if_neg hc]
      cases h : pySplit sep rest with
      | nil => simp
      | cons a b => simp

/-- The first segment of `pySplit` is the run of characters before the
first separator. -/
theorem pySplit_getD_zero (sep : Char) (l : List Char) :
    (pySplit sep l).getD 0 [] = l.takeWhile (fun d => !(d == sep)) := by
  induction l with
  | nil => rfl
  | cons c rest ih =>
    rw [pySplit, List.takeWhile_cons]
    by_cases hc : (c == sep) = true
    · simp [hc]
    · rw [if_neg hc]
      have hb : (!(c == sep)) = true := by
        simp only [Bool.not_eq_true'] at hc ⊢
        exact Bool.not_eq_true (c == sep) ▸ (by simpa using hc)
      cases h : pySplit sep rest with
      | nil => exact absurd h (pySplit_ne_nil sep rest)
      | cons a b =>
        rw [h] at ih
        simp only [List.getD_cons_zero] at ih
        simp [hb, ih]

/-- Removing a non-separator head preserves the substring test for the
separator. -/
theorem hasSub_tail (sep c : Char) (rest : List Char)
    (h : hasSub [sep] (c :: rest) = true) (hc : ¬((c == sep) = true)) :
    hasSub [sep] rest = true := by
  simp only [hasSub, leads, Bool.or_eq_true, Bool.and_eq_true, beq_iff_eq] at h
  rcases h with ⟨h1, _⟩ | h2
  · exact absurd (beq_iff_eq.mpr h1.symm) hc
  · exact h2

/-- The second segment of `pySplit` is the run strictly between the
first and second separators (when a separator is present at all). -/
theorem pySplit_getD_one (sep : Char) (l : List Char)
    (h : hasSub [sep] l = true) :
    (pySplit sep l).getD 1 [] =
      ((l.dropWhile (fun d => !(d == sep))).drop 1).takeWhile
        (fun d => !(d == sep)) := by
  induction l with
  | nil => simp [hasSub, leads] at h
  | cons c rest ih =>
    by_cases hc : (c == sep) = true
    · have hb : (!(c == sep)) = false := by simp [hc]
      rw [pySplit, if_pos hc, List.getD_cons_succ, pySplit_getD_zero,
        List.dropWhile_cons, if_neg (by simp [hb]), List.drop_succ_cons,
        List.drop_zero]
    · have hb : (!(c == sep)) = true := by simpa using hc
      have hrest := hasSub_tail sep c rest h hc
      have ih2 := ih hrest
      rw [pySplit, if_neg hc]
      cases hps : pySplit sep rest with
      | nil => exact absurd hps (pySplit_ne_nil sep rest)
      | cons a b =>
        rw [hps] at ih2
        rw [List.dropWhile_cons, if_pos (by simp [hb])]
        rw [List.getD_cons_succ]
        rw [List.getD_cons_succ] at ih2
        exact ih2

/-- When a separator occurs, the split has at least two segments. -/
theorem pySplit_two_le (sep : Char) (l : List Char)
    (h : hasSub [sep] l = true) : 2 ≤ (pySplit sep l).length := by
  induction l with
  | nil => simp [hasSub, leads] at h
  | cons c rest ih =>
    rw [pySplit]
    by_cases hc : (c == sep) = true
    · have h1 : pySplit sep rest ≠ [] := pySplit_ne_nil sep rest
      have h2 : 0 < (pySplit sep rest).length := List.length_pos.mpr h1
      simp only [hc, if_pos, List.length_cons]
      omega
    · have hrest := hasSub_tail sep c rest h hc
      rw [if_neg hc]
      cases hps : pySplit sep rest with
      | nil => exact absurd hps (pySplit_ne_nil sep rest)
      | cons a b =>
        have ih2 := ih hrest
        rw [hps] at ih2
        simp only [List.length_cons] at ih2 ⊢
        omega

/-- Any issue contributed by an extracted record's loop iteration is in
the final report's issue list. -/
theorem lint_issues_of_mem
    (analyze : List Char → List Char → List Char → Analysis)
    (diff : List Char) (r : RawQuery)
    (hr : r ∈ extract_queries_from_diff diff)
    (i : Issue) (hi : i ∈ (processQuery analyze r).2) :
    i ∈ (lint_pr_core analyze diff).issues := by
  have hne : extract_queries_from_diff diff ≠ [] := List.ne_nil_of_mem hr
  have hE : ¬((extract_queries_from_diff diff).isEmpty = true) := by
    simp [List.isEmpty_iff, hne]
  rw [lint_pr_core, if_neg hE]
  exact List.mem_flatMap.mpr ⟨r, hr, hi⟩

/-- The report's `queries` list is exactly the extracted record list,
in both the early-return and the main branch. -/
theorem lint_queries_eq
    (analyze : List Char → List Char → List Char → Analysis)
    (diff : List Char) :
    (lint_pr_core analyze diff).queries = extract_queries_from_diff diff := by
  by_cases hE : (extract_queries_from_diff diff).isEmpty = true
  · rw [lint_pr_core, if_pos hE]
    exact (List.isEmpty_iff.mp hE).symm
  · rw [lint_pr_core, if_neg hE]

/-- One analysis is appended per record with a resolved collection, and
none for the records whose collection stayed `"unknown"`. -/
theorem processQuery_fst_length
    (analyze : List Char → List Char → List Char → Analysis)
    (qs : List RawQuery) :
    (qs.flatMap (fun q => (processQuery analyze q).1)).length =
      (qs.filter (fun q => decide (q.collection ≠ sUnknown))).length := by
  induction qs with
  | nil => rfl
  | cons q qs ih =>
    rw [List.flatMap_cons, List.filter_cons, List.length_append]
    by_cases hc : q.collection ≠ sUnknown
    · rw [processQuery, if_pos hc]
      simp only [hc, decide_not, List.length_cons, List.length_nil]
      simp [ih]
      omega
    · rw [processQuery, if_neg hc]
      simp [hc, ih]

/-- The report's `analyses` list has exactly one entry per extracted
record with a resolved collection name. -/
theorem lint_analyses_length
    (analyze : List Char → List Char → List Char → Analysis)
    (diff : List Char) :
    (lint_pr_core analyze diff).analyses.length =
      ((extract_queries_from_diff diff).filter
        (fun q => decide (q.collection ≠ sUnknown))).length := by
  by_cases hE : (extract_queries_from_diff diff).isEmpty = true
  · rw [lint_pr_core, if_pos hE, List.isEmpty_iff.mp hE]
    rfl
  · rw [lint_pr_core, if_neg hE]
    exact processQuery_fst_length analyze (extract_queries_from_diff diff)

/-- The success flag of either branch of `lint_pr` is set exactly when
the issue list is empty. -/
theorem lint_success_iff
    (analyze : List Char → List Char → List Char → Analysis)
    (diff : List Char) :
    (lint_pr_core analyze diff).success = true ↔
      (lint_pr_core analyze diff).issues = [] := by
  by_cases hE : (extract_queries_from_diff diff).isEmpty = true
  · rw [lint_pr_core, if_pos hE]
    simp
  · rw [lint_pr_core, if_neg hE]
    simp only [beq_iff_eq]
    exact List.length_eq_zero

/-! ## Claim theorems -/

/-- Claim C1 (code_bug evidence): for the well-formed single-call diff
`x = 1\ndb.users.find({status: 1})` the extractor does return exactly
one record with the correct 1-based line number 2, but its operation
field is `find\` — the operation name with a trailing backslash, an
artifact of `pattern.split('.')[1].split('(')[0]` applied to the regex
source text `\.find\(([^)]+)\)` — and not the operation name `find`.
The same holds for all seven patterns. -/
theorem c1_operation_tag_is_not_bare_name :
    ((extract_queries_from_diff (("x = 1\ndb.users.find(\x7bstatus: 1\x7d)").toList)).map
        (fun r => (r.operation, r.line_number)) = [((("find\\").toList), 2)]) ∧
    opTag patFind ≠ (("find").toList) ∧
    (opData.map (fun pd => opTag pd.1) =
      [(("find\\").toList), (("findOne\\").toList), (("aggregate\\").toList),
       (("updateOne\\").toList), (("updateMany\\").toList),
       (("deleteOne\\").toList), (("deleteMany\\").toList)]) := by
  refine ⟨by decide, by decide, by decide⟩

/-- Claim C3 (code_bug evidence): the record extracted from
`db.orders.aggregate([{$sort: {x: 1}}])` carries the operation tag
`aggregate\` (trailing backslash), so the static check
`operation == 'aggregate' and 'sort' in query_str and 'limit' not in
query_str` can never fire on an extracted record: linting this diff
produces no issue at all, although the argument text contains `sort`
and lacks `limit`.  With the intended bare tag `aggregate` the static
analyzer does produce exactly the MEDIUM `SORT_WITHOUT_LIMIT` issue. -/
theorem c3_sort_without_limit_never_fires :
    ((extract_queries_from_diff aggDiff).map
        (fun r => (r.operation, r.query, r.collection)) =
      [((("aggregate\\").toList), aggArg, ("orders").toList)]) ∧
    ((AtlasLinter.lint_pr cfgDefault evalNone dbDown aggDiff).issues = []) ∧
    ((analyze_query_statically recAggBare).map
        (fun i => (i.severity, i.itype)) =
      [(sMEDIUM, some sSORT_WITHOUT_LIMIT)]) := by
  refine ⟨by decide, by decide, by decide⟩

/-- Claim C9: for every report produced by `lint_pr` — the early return
for a diff without queries included, and for either linter front-end —
the `success` flag is true exactly when the issue list is empty. -/
theorem c9_success_iff_issues_empty
    (analyze : List Char → List Char → List Char → Analysis)
    (diff : List Char) :
    ((lint_pr_core analyze diff).success = true ↔
      (lint_pr_core analyze diff).issues = []) ∧
    (∀ (cfg : LintConfig) (evalO : EvalOracle) (dbO : DbOracle),
      (AtlasLinter.lint_pr cfg evalO dbO diff).success = true ↔
        (AtlasLinter.lint_pr cfg evalO dbO diff).issues = []) ∧
    (∀ (cfg : LintConfig) (evalO : EvalOracle) (dbO : DbOracle),
      (ClientLinter.lint_pr cfg evalO dbO diff).success = true ↔
        (ClientLinter.lint_pr cfg evalO dbO diff).issues = []) :=
  ⟨lint_success_iff analyze diff,
   fun _ evalO dbO => lint_success_iff
     (AtlasLinter.analyze_query_performance evalO dbO) diff,
   fun _ evalO dbO => lint_success_iff
     (ClientLinter.analyze_query_performance evalO dbO) diff⟩

/-- Claim C10: every extracted record has a nonempty raw argument text,
because the capture group `([^)]+)` needs at least one character; in
particular a call with empty parentheses such as `db.users.find()`
yields no record at all. -/
theorem c10_raw_argument_text_nonempty :
    (∀ (diff : List Char) (r : RawQuery),
      r ∈ extract_queries_from_diff diff → r.query ≠ []) ∧
    extract_queries_from_diff (("db.users.find()").toList) = [] := by
  constructor
  · intro diff r hr
    simp only [extract_queries_from_diff, List.mem_flatten, List.mem_map] at hr
    obtain ⟨l, ⟨p, hp, rfl⟩, hrl⟩ := hr
    simp only [recordsForLine, List.mem_flatMap, List.mem_map] at hrl
    obtain ⟨pd, hpd, cap, hcap, rfl⟩ := hrl
    exact scanGo_nonempty pd.2 _ _ cap hcap
  · decide

/-- Claim C2 (counterexample): the one-line diff `.find({})` yields a
record whose argument text is `{}` but whose collection name is
unresolved; `lint_pr` skips unresolved records entirely — static
analysis included — so the report contains no issue at all, against the
claim that an `EMPTY_QUERY` issue appears regardless of whether the
collection name was resolved. -/
theorem c2_counterexample_unresolved_skipped :
    ((extract_queries_from_diff ((".find(\x7b\x7d)").toList)).map
        (fun r => (r.query, r.collection)) = [(emptyBraces, sUnknown)]) ∧
    (AtlasLinter.lint_pr cfgDefault evalNone dbDown
        ((".find(\x7b\x7d)").toList)).issues = [] := by
  refine ⟨by decide, by decide⟩

/-- Claim C2 (amended): for every extracted record whose argument text
strips to `{}` or to the empty string and whose collection name was
resolved, linting yields a HIGH `EMPTY_QUERY` issue for that record —
independent of the analyzer, hence of any database or eval state;
records with unresolved collection receive no static analysis. -/
theorem c2_empty_query_for_resolved_records
    (analyze : List Char → List Char → List Char → Analysis)
    (diff : List Char) (r : RawQuery)
    (hr : r ∈ extract_queries_from_diff diff)
    (hq : pyStrip r.query = emptyBraces ∨ pyStrip r.query = [])
    (hc : r.collection ≠ sUnknown) :
    ∃ i ∈ (lint_pr_core analyze diff).issues,
      i.severity = sHIGH ∧ i.itype = some sEMPTY_QUERY ∧ i.query = r := by
  refine ⟨mkStatic sHIGH (emptyMsg r.line_number) r sEMPTY_QUERY,
    lint_issues_of_mem analyze diff r hr _ ?_, rfl, rfl, rfl⟩
  rw [processQuery, if_pos hc]
  apply List.mem_append.mpr
  left
  rw [analyze_query_statically, if_pos hq]
  exact List.mem_append.mpr (Or.inl (List.mem_cons_self _ _))

theorem c2_empty_query_for_resolved_records_witness :
    ∃ i ∈ (lint_pr_core (AtlasLinter.analyze_query_performance evalNone dbDown)
        diffUsersEmpty).issues,
      i.severity = sHIGH ∧ i.itype = some sEMPTY_QUERY ∧
        i.query = recUsersEmpty :=
  c2_empty_query_for_resolved_records
    (AtlasLinter.analyze_query_performance evalNone dbDown)
    diffUsersEmpty recUsersEmpty (by decide) (by decide) (by decide)

/-- Claim C4: for every analyzed record with a resolved collection name
the three explain-based checks are evaluated independently — a
collection-scan winning plan appends the HIGH issue, execution time
strictly over 100 ms appends the MEDIUM issue carrying the measured
milliseconds in its message, documents examined strictly over 1000
appends the MEDIUM issue carrying the count.  At exactly 100 ms /
1000 documents nothing fires; at 101 ms / 1001 documents / a COLLSCAN
all three fire.  The thresholds are the literal constants of `lint_pr`:
the reports are identical for every `LintConfig` value. -/
theorem c4_explain_threshold_checks :
    (∀ (analyze : List Char → List Char → List Char → Analysis)
        (diff : List Char) (r : RawQuery) (a : Analysis),
      r ∈ extract_queries_from_diff diff → r.collection ≠ sUnknown →
      analyze r.collection r.query r.operation = a →
      (a.is_collection_scan = true →
        collScanIssue r a ∈ (lint_pr_core analyze diff).issues) ∧
      (a.execution_time_ms > 100 →
        slowIssue r a ∈ (lint_pr_core analyze diff).issues) ∧
      (a.documents_examined > 1000 →
        largeIssue r a ∈ (lint_pr_core analyze diff).issues)) ∧
    ((AtlasLinter.lint_pr cfgDefault evalNone dbAt100 diffUsersFind).issues
      = []) ∧
    ((AtlasLinter.lint_pr cfgDefault evalNone dbAt101 diffUsersFind).issues =
      [collScanIssue recUsersFind analysisAt101,
       slowIssue recUsersFind analysisAt101,
       largeIssue recUsersFind analysisAt101]) ∧
    (∀ (cfg cfg' : LintConfig) (evalO : EvalOracle) (dbO : DbOracle)
        (diff : List Char),
      AtlasLinter.lint_pr cfg evalO dbO diff =
        AtlasLinter.lint_pr cfg' evalO dbO diff ∧
      ClientLinter.lint_pr cfg evalO dbO diff =
        ClientLinter.lint_pr cfg' evalO dbO diff) := by
  refine ⟨?_, by decide, by decide, fun _ _ _ _ _ => ⟨rfl, rfl⟩⟩
  intro analyze diff r a hr hc ha
  have hmem : ∀ i ∈ dynIssuesFor r a,
      i ∈ (lint_pr_core analyze diff).issues := by
    intro i hi
    apply lint_issues_of_mem analyze diff r hr
    rw [processQuery, if_pos hc, ha]
    exact List.mem_append.mpr (Or.inr hi)
  refine ⟨fun h1 => hmem _ ?_, fun h2 => hmem _ ?_, fun h3 => hmem _ ?_⟩
  · rw [dynIssuesFor, if_pos h1]
    exact List.mem_append.mpr (Or.inl (List.mem_cons_self _ _))
  · rw [dynIssuesFor]
    refine List.mem_append.mpr (Or.inl (List.mem_append.mpr (Or.inr ?_)))
    rw [if_pos h2]
    exact List.mem_cons_self _ _
  · rw [dynIssuesFor]
    refine List.mem_append.mpr (Or.inr ?_)
    rw [if_pos h3]
    exact List.mem_cons_self _ _

theorem c4_explain_threshold_checks_witness :
    collScanIssue recUsersFind analysisAt101 ∈
      (lint_pr_core (AtlasLinter.analyze_query_performance evalNone dbAt101)
        diffUsersFind).issues ∧
    slowIssue recUsersFind analysisAt101 ∈
      (lint_pr_core (AtlasLinter.analyze_query_performance evalNone dbAt101)
        diffUsersFind).issues ∧
    largeIssue recUsersFind analysisAt101 ∈
      (lint_pr_core (AtlasLinter.analyze_query_performance evalNone dbAt101)
        diffUsersFind).issues := by
  have h := c4_explain_threshold_checks.1
    (AtlasLinter.analyze_query_performance evalNone dbAt101)
    diffUsersFind recUsersFind analysisAt101 (by decide) (by decide) (by decide)
  exact ⟨h.1 (by decide), h.2.1 (by decide), h.2.2 (by decide)⟩

/-- The colon fallback of `_parse_query_string`, characterized without
`split`: the field is the text before the first colon; the value is the
text strictly between the first and second colons. -/
theorem colonFallback_eq (cleaned : List Char) :
    colonFallback cleaned =
      (if hasSub [':'] cleaned then
        PyVal.pdict
          [(PyVal.pstr (stripQuotes (pyStrip
              (cleaned.takeWhile (fun d => !(d == ':'))))),
            PyVal.pstr (stripQuotes (pyStrip
              (((cleaned.dropWhile (fun d => !(d == ':'))).drop 1).takeWhile
                (fun d => !(d == ':'))))))]
      else PyVal.pdict []) := by
  by_cases h : hasSub [':'] cleaned = true
  · rw [colonFallback, if_pos h, if_pos h,
      if_pos (pySplit_two_le ':' cleaned h),
      pySplit_getD_zero, pySplit_getD_one ':' cleaned h]
  · rw [colonFallback, if_neg h, if_neg h]

/-- Claim C5 (counterexample): on the braceless text `a:b:c` the
interpreter returns the mapping `a ↦ b` — the value is the segment
between the first and second colons, not the whole remainder `b:c`
after the first colon. -/
theorem c5_counterexample_split_value :
    parse_query_string evalNone (("a:b:c").toList) =
      PyVal.pdict [(PyVal.pstr (("a").toList), PyVal.pstr (("b").toList))] ∧
    PyVal.pstr (("b").toList) ≠ PyVal.pstr (("b:c").toList) := by
  refine ⟨rfl, fun h => ?_⟩
  injection h with h1
  exact absurd h1 (by decide)

/-- Claim C5 (amended): `_parse_query_string` strips surrounding
whitespace and quotes, returns the evaluated value when the cleaned
text contains both braces and evaluation succeeds, otherwise — when the
text contains a colon — returns the single-field mapping whose field is
the text before the first colon and whose value is the text strictly
between the first and second colons (later segments discarded),
otherwise the empty mapping; it never raises (it is total). -/
theorem c5_amended_parse_refinement (evalO : EvalOracle) (s : List Char) :
    parse_query_string evalO s = parse_query_spec evalO s := by
  by_cases hb : hasSub [lbrace] (stripQuotes (pyStrip s)) = true ∧
      hasSub [rbrace] (stripQuotes (pyStrip s)) = true
  · cases hev : evalO (stripQuotes (pyStrip s)) with
    | some v =>
      rw [parse_query_string, parse_query_spec, if_pos hb,
        if_pos ⟨hb.1, hb.2, by rw [hev]; rfl⟩, hev]
      rfl
    | none =>
      rw [parse_query_string, parse_query_spec, if_pos hb,
        if_neg (fun hcond => by
          rw [hev] at hcond
          exact absurd hcond.2.2 (by simp)), hev]
      exact colonFallback_eq _
  · rw [parse_query_string, parse_query_spec, if_neg hb,
      if_neg (fun hcond => hb ⟨hcond.1, hcond.2.1⟩)]
    exact colonFallback_eq _

/-- Claim C6: for an aggregate argument text whose literal evaluation
fails, the pipeline interpreter returns exactly the single-stage
default `[{"$match": {}}]` and never raises; and the run keeps
processing the remaining records regardless of any oracle answers: the
report lists every extracted record, with one analysis per resolved
record. -/
theorem c6_pipeline_eval_failure_fallback
    (evalO : EvalOracle) (s : List Char)
    (analyze : List Char → List Char → List Char → Analysis)
    (diff : List Char) (h : evalO s = none) :
    parse_aggregation_pipeline evalO s = defaultPipeline ∧
    (lint_pr_core analyze diff).queries = extract_queries_from_diff diff ∧
    (lint_pr_core analyze diff).analyses.length =
      ((extract_queries_from_diff diff).filter
        (fun q => decide (q.collection ≠ sUnknown))).length := by
  refine ⟨?_, lint_queries_eq analyze diff, lint_analyses_length analyze diff⟩
  rw [parse_aggregation_pipeline, h]

theorem c6_pipeline_eval_failure_fallback_witness :
    parse_aggregation_pipeline evalNone (("[\x7b$match").toList) =
      defaultPipeline ∧
    (lint_pr_core (AtlasLinter.analyze_query_performance evalNone dbDown)
        diffUsersFind).queries = extract_queries_from_diff diffUsersFind ∧
    (lint_pr_core (AtlasLinter.analyze_query_performance evalNone dbDown)
        diffUsersFind).analyses.length =
      ((extract_queries_from_diff diffUsersFind).filter
        (fun q => decide (q.collection ≠ sUnknown))).length :=
  c6_pipeline_eval_failure_fallback evalNone (("[\x7b$match").toList)
    (AtlasLinter.analyze_query_performance evalNone dbDown) diffUsersFind rfl

/-- Claim C7: `analyze_query_performance` never raises to its caller.
Whenever the explain attempt fails — the explain call raising in either
variant, or, in the client variant, the collection name being absent
from the database — the returned analysis has all metrics zero,
`index_used` null, `is_collection_scan` false and `error` set to the
failure description; and `lint_pr` still processes every record. -/
theorem c7_explain_failure_recovery
    (evalO : EvalOracle) (dbO : DbOracle) (name qstr op e : List Char)
    (analyze : List Char → List Char → List Char → Analysis)
    (diff : List Char) :
    (runExplain evalO dbO name qstr op = Except.error e →
      AtlasLinter.analyze_query_performance evalO dbO name qstr op =
        errorAnalysis name qstr op e) ∧
    (dbO.collections.contains name = false →
      ClientLinter.analyze_query_performance evalO dbO name qstr op =
        errorAnalysis name qstr op (notFoundMsg name)) ∧
    (dbO.collections.contains name = true →
      runExplain evalO dbO name qstr op = Except.error e →
      ClientLinter.analyze_query_performance evalO dbO name qstr op =
        errorAnalysis name qstr op e) ∧
    ((errorAnalysis name qstr op e).execution_time_ms = 0 ∧
     (errorAnalysis name qstr op e).documents_examined = 0 ∧
     (errorAnalysis name qstr op e).documents_returned = 0 ∧
     (errorAnalysis name qstr op e).index_used = none ∧
     (errorAnalysis name qstr op e).is_collection_scan = false ∧
     (errorAnalysis name qstr op e).error = some e) ∧
    ((lint_pr_core analyze diff).queries = extract_queries_from_diff diff ∧
     (lint_pr_core analyze diff).analyses.length =
      ((extract_queries_from_diff diff).filter
        (fun q => decide (q.collection ≠ sUnknown))).length) := by
  refine ⟨?_, ?_, ?_, ⟨rfl, rfl, rfl, rfl, rfl, rfl⟩,
    lint_queries_eq analyze diff, lint_analyses_length analyze diff⟩
  · intro h
    rw [AtlasLinter.analyze_query_performance, h]
  · intro h
    rw [ClientLinter.analyze_query_performance, h]
    simp
  · intro h1 h2
    rw [ClientLinter.analyze_query_performance, h1, h2]
    simp

theorem c7_explain_failure_recovery_witness :
    AtlasLinter.analyze_query_performance evalNone dbDown (("users").toList)
        (("x").toList) (("find\\").toList) =
      errorAnalysis (("users").toList) (("x").toList) (("find\\").toList)
        sDown ∧
    ClientLinter.analyze_query_performance evalNone dbDown (("users").toList)
        (("x").toList) (("find\\").toList) =
      errorAnalysis (("users").toList) (("x").toList) (("find\\").toList)
        (notFoundMsg (("users").toList)) := by
  have h := c7_explain_failure_recovery evalNone dbDown (("users").toList)
    (("x").toList) (("find\\").toList) sDown
    (AtlasLinter.analyze_query_performance evalNone dbDown) diffUsersFind
  exact ⟨h.1 rfl, h.2.1 rfl⟩

/-- Claim C8: collection names resolve in order — (1) an inline
`db.<name>.<op>` or `<name>.<op>` token on the call's line; (2)
otherwise a `<var> = db.<name>` assignment among the 3 immediately
preceding lines; (3) otherwise the string `"unknown"`; and records with
the unresolved name stay in the report's query list but are excluded
from explain analysis. -/
theorem c8_collection_name_resolution :
    (extract_collection_name
        (("return db.orders.find(\x7bstatus: 1\x7d)").toList) 7 [] =
      ("orders").toList) ∧
    (extract_collection_name (("orders.find(\x7bstatus: 1\x7d)").toList) 0 [] =
      ("orders").toList) ∧
    (extract_collection_name ((" .find(\x7bstatus: 1\x7d)").toList) 1
        [("users = db.users").toList, (" .find(\x7bstatus: 1\x7d)").toList] =
      ("users").toList) ∧
    (extract_collection_name ((".find(\x7bx: 1\x7d)").toList) 0
        [(".find(\x7bx: 1\x7d)").toList] = sUnknown) ∧
    (∀ (line : List Char) (ln : Nat) (all : List (List Char)) (n : List Char),
      reSearchColl line = some n → extract_collection_name line ln all = n) ∧
    (∀ (line : List Char) (ln : Nat) (all : List (List Char)) (n : List Char),
      reSearchColl line = none →
      findPrevBinding all (List.range' (ln - 3) (ln - (ln - 3))) = some n →
      extract_collection_name line ln all = n) ∧
    (∀ (line : List Char) (ln : Nat) (all : List (List Char)),
      reSearchColl line = none →
      findPrevBinding all (List.range' (ln - 3) (ln - (ln - 3))) = none →
      extract_collection_name line ln all = sUnknown) ∧
    (∀ (analyze : List Char → List Char → List Char → Analysis)
        (r : RawQuery),
      r.collection = sUnknown → processQuery analyze r = ([], [])) ∧
    (∀ (analyze : List Char → List Char → List Char → Analysis)
        (diff : List Char),
      (lint_pr_core analyze diff).queries = extract_queries_from_diff diff ∧
      (lint_pr_core analyze diff).analyses.length =
        ((extract_queries_from_diff diff).filter
          (fun q => decide (q.collection ≠ sUnknown))).length) := by
  refine ⟨by decide, by decide, by decide, by decide, ?_, ?_, ?_, ?_,
    fun analyze diff =>
      ⟨lint_queries_eq analyze diff, lint_analyses_length analyze diff⟩⟩
  · intro line ln all n h
    rw [extract_collection_name, h]
  · intro line ln all n h1 h2
    rw [extract_collection_name, h1, h2]
  · intro line ln all h1 h2
    rw [extract_collection_name, h1, h2]
  · intro analyze r h
    rw [processQuery, if_neg (by simp [h])]

theorem c8_collection_name_resolution_witness :
    extract_collection_name (("db.a.find(x)").toList) 0 [] = ("a").toList ∧
    processQuery (AtlasLinter.analyze_query_performance evalNone dbDown)
      { line_number := 1, operation := ("find\\").toList
        query := ("x").toList, collection := sUnknown
        full_line := ("x").toList } = ([], []) :=
  ⟨c8_collection_name_resolution.2.2.2.2.1 _ 0 [] _ (by decide),
   c8_collection_name_resolution.2.2.2.2.2.2.2.1 _ _ rfl⟩

theorem c10_raw_argument_text_nonempty_witness :
    recUsersFind ∈ extract_queries_from_diff diffUsersFind ∧
    recUsersFind.query ≠ [] :=
  ⟨by decide,
   c10_raw_argument_text_nonempty.1 diffUsersFind recUsersFind (by decide)⟩
